import Mathlib

/-!
Shallow embedding of the screening-score engine of
`Streamlit-Fracture-Risk-Calculator` (`src/app.py`).

The Python program works on IEEE floats; the embedding uses exact
rationals for the linear predictor and BMI, and real numbers for the
logistic transform `1 / (1 + exp (-score))`.  The Python `round(x, 1)`
rounds half-to-even at exact ties; over the exact arithmetic used here no
quantity of interest ever lands on a tie (the logistic output is
irrational for every nonzero rational score), so rounding is modelled
with the Mathlib `round` (round half up), which agrees with the source
everywhere it is applied.
-/

namespace FractureRisk

/-- The `sex` selectbox of `app.py` offers exactly "Female" and "Male". -/
inductive Sex
  | Female
  | Male
deriving DecidableEq, Repr

/-- The form inputs of `app.py` (lines 51-74): `age` is an integer input,
`weight`, `height_cm` and `femoral_neck_bmd` are numeric inputs (modelled
as exact rationals), and the nine risk factors are checkboxes. -/
structure PatientInput where
  age : ℤ
  sex : Sex
  weight : ℚ
  height_cm : ℚ
  femoral_neck_bmd : ℚ
  prior_fracture : Bool
  parent_hip : Bool
  current_smoker : Bool
  glucocorticoids : Bool
  rheumatoid : Bool
  secondary_osteoporosis : Bool
  alcohol_3_more : Bool
  fall_in_last_year : Bool
  immobility : Bool
deriving DecidableEq, Repr

/-- The declared input domains of the form collector (§3 of the spec; the
`st.number_input` bounds of `app.py`). -/
def InDomain (i : PatientInput) : Prop :=
  40 ≤ i.age ∧ i.age ≤ 100 ∧ 30 ≤ i.weight ∧ i.weight ≤ 200 ∧
    120 ≤ i.height_cm ∧ i.height_cm ≤ 220 ∧
    (i.femoral_neck_bmd = 0 ∨ (2/5 ≤ i.femoral_neck_bmd ∧ i.femoral_neck_bmd ≤ 8/5))

instance (i : PatientInput) : Decidable (InDomain i) := by
  unfold InDomain; infer_instance

-- The weight constants of `app.py` lines 81-94.
def AGE_WEIGHT : ℚ := 12/100
def SEX_MALE_WEIGHT : ℚ := -(10/100)
def BMI_WEIGHT : ℚ := -(5/100)
def PRIOR_FRACTURE_WEIGHT : ℚ := 12/10
def PARENT_HIP_WEIGHT : ℚ := 7/10
def SMOKER_WEIGHT : ℚ := 6/10
def GLUCOCORTICOSTEROID_WEIGHT : ℚ := 9/10
def RHEUMATOID_WEIGHT : ℚ := 8/10
def SECONDARY_OSTEOPOROSIS_WEIGHT : ℚ := 9/10
def ALCOHOL_WEIGHT : ℚ := 5/10
def FALL_WEIGHT : ℚ := 8/10
def IMMOBILITY_WEIGHT : ℚ := 1
def BMD_WEIGHT : ℚ := -(25/10)
def BASELINE : ℚ := -6

/-- The Python `round(x, 1)`: round to one decimal place. -/
def round1 (x : ℚ) : ℚ := (round (10 * x) : ℤ) / 10

/-- The unrounded body-mass index `weight / ((height_cm/100)**2)`
(the argument of `round` on line 56 of `app.py`). -/
def bmi_raw (i : PatientInput) : ℚ := i.weight / (i.height_cm / 100) ^ 2

/-- Line 56 of `app.py`: `bmi = round(weight / ((height_cm/100)**2), 1)`. -/
def bmi (i : PatientInput) : ℚ := round1 (bmi_raw i)

/-- The Python `int` applied to a checkbox boolean. -/
def boolToInt (b : Bool) : ℚ := if b then 1 else 0

/-- The linear predictor of `app.py` lines 98-113, parameterised by the
BMI value fed into the `BMI_WEIGHT` term (the source feeds the rounded
`bmi`; the parameterisation lets the development also name the variant
that would use the unrounded value).  Each `let` mirrors one `score +=`
statement, and the final `if` mirrors
`if femoral_neck_bmd and femoral_neck_bmd > 0.0` (Python truthiness
conjoined with the comparison). -/
def score_core (i : PatientInput) (bmi_val : ℚ) : ℚ :=
  let s := BASELINE
  let s := s + AGE_WEIGHT * ((i.age : ℚ) - 40)
  let s := if i.sex = Sex.Male then s + SEX_MALE_WEIGHT else s
  let s := s + BMI_WEIGHT * (bmi_val - 25)
  let s := s + PRIOR_FRACTURE_WEIGHT * boolToInt i.prior_fracture
  let s := s + PARENT_HIP_WEIGHT * boolToInt i.parent_hip
  let s := s + SMOKER_WEIGHT * boolToInt i.current_smoker
  let s := s + GLUCOCORTICOSTEROID_WEIGHT * boolToInt i.glucocorticoids
  let s := s + RHEUMATOID_WEIGHT * boolToInt i.rheumatoid
  let s := s + SECONDARY_OSTEOPOROSIS_WEIGHT * boolToInt i.secondary_osteoporosis
  let s := s + ALCOHOL_WEIGHT * boolToInt i.alcohol_3_more
  let s := s + FALL_WEIGHT * boolToInt i.fall_in_last_year
  let s := s + IMMOBILITY_WEIGHT * boolToInt i.immobility
  if i.femoral_neck_bmd ≠ 0 ∧ 0 < i.femoral_neck_bmd then
    s + BMD_WEIGHT * (i.femoral_neck_bmd - 7/10)
  else s

/-- The linear predictor `score` of `app.py` (lines 98-113): the source
uses the rounded `bmi` in the BMI term. -/
def score (i : PatientInput) : ℚ := score_core i (bmi i)

/-- Variant following the words of the spec for the rounding-order check: the
same predictor computed with the unrounded BMI instead of the rounded
one. -/
def score_unrounded (i : PatientInput) : ℚ := score_core i (bmi_raw i)

/-- Line 116 of `app.py`: `prob_like = 1 / (1 + np.exp(-score))`. -/
noncomputable def prob_like (s : ℝ) : ℝ := 1 / (1 + Real.exp (-s))

/-- Rounding `round(x, 1)` on the real result of the logistic transform. -/
noncomputable def round1R (x : ℝ) : ℝ := (round (10 * x) : ℤ) / 10

/-- Line 117 of `app.py`: `screening_index = round(prob_like * 100, 1)`. -/
noncomputable def screening_index (i : PatientInput) : ℝ :=
  round1R (prob_like ((score i : ℚ) : ℝ) * 100)

/-- The screening index the program would produce had it used the
unrounded BMI (the rounding-order comparison of the spec). -/
noncomputable def screening_index_unrounded (i : PatientInput) : ℝ :=
  round1R (prob_like ((score_unrounded i : ℚ) : ℝ) * 100)

/-- The interpretation bands of `app.py` lines 123-130. -/
noncomputable def interpretation (si : ℝ) : String :=
  if si < 10 then "Low (screening only)."
  else if si < 20 then "Mild (consider bone densitometry if other concerns)."
  else if si < 35 then "Moderate (consider referral for further assessment / DXA)."
  else "High (refer for DXA and specialist assessment)."

/-- The derived result record (§3 of the spec). -/
structure ScreeningResult where
  bmi : ℚ
  screening_index : ℝ
  interpretation : String

/-- The whole engine: BMI, screening index and interpretation label
computed from one `PatientInput`. -/
noncomputable def computeScreening (i : PatientInput) : ScreeningResult :=
  { bmi := bmi i
    screening_index := screening_index i
    interpretation := interpretation (screening_index i) }

-- Concrete inputs used in the development.

/-- End-to-end example 1 of the spec: age 65, Female, 70 kg, 160 cm, no
BMD, no risk factors. -/
def example1 : PatientInput :=
  { age := 65, sex := Sex.Female, weight := 70, height_cm := 160
    femoral_neck_bmd := 0
    prior_fracture := false, parent_hip := false, current_smoker := false
    glucocorticoids := false, rheumatoid := false
    secondary_osteoporosis := false, alcohol_3_more := false
    fall_in_last_year := false, immobility := false }

/-- End-to-end example 2: example 1 with prior fracture and parental hip
fracture. -/
def example2 : PatientInput :=
  { example1 with prior_fracture := true, parent_hip := true }

/-- Input crafted for the rounding-order check: example 1 at age 85 with
immobility set. -/
def crafted : PatientInput :=
  { example1 with age := 85, immobility := true }

/-- An in-domain input whose score is extremely negative: age 40, Male,
200 kg, 120 cm, BMD 1.6, no risk factors. -/
def extreme40 : PatientInput :=
  { age := 40, sex := Sex.Male, weight := 200, height_cm := 120
    femoral_neck_bmd := 8/5
    prior_fracture := false, parent_hip := false, current_smoker := false
    glucocorticoids := false, rheumatoid := false
    secondary_osteoporosis := false, alcohol_3_more := false
    fall_in_last_year := false, immobility := false }

/-- The input `extreme40` one year older. -/
def extreme41 : PatientInput := { extreme40 with age := 41 }

-- The CSV export (lines 137-150 of `app.py`).

/-- The result of `st.download_button(label, data, file_name, mime)`:
the byte payload together with the file name and MIME type offered to the
user.  Lean strings are Unicode; the `.encode("utf-8")` step of the
source is modelled as the identity on the textual content. -/
structure DownloadButton where
  data : String
  file_name : String
  mime : String

/-- The `user_data` dict of `app.py` lines 137-147: one record, insertion
order preserved (Python dicts are ordered), each column holding exactly
one cell.  The cell values are taken as already-rendered strings, since
their numeric formatting is done by the pandas library, not by this
code of this repository. -/
def user_data (dateV ageV sexV weightV heightV bmiV bmdV siV interpV : String) :
    List (String × String) :=
  [("date", dateV), ("age", ageV), ("sex", sexV), ("weight_kg", weightV),
    ("height_cm", heightV), ("bmi", bmiV), ("femoral_neck_bmd", bmdV),
    ("screening_index", siV), ("interpretation", interpV)]

/-- Modelled from the spec: `pd.DataFrame(user_data).to_csv(index=False)`
for a one-row frame (the pandas call is library code, not part of this
repository) — "a header row followed by exactly one data row,
comma-separated". -/
def to_csv (df : List (String × String)) : String :=
  String.intercalate "," (df.map Prod.fst) ++ "\n" ++
    String.intercalate "," (df.map Prod.snd) ++ "\n"

/-- Line 150 of `app.py`: the download button offering the CSV. -/
def download_button (df : List (String × String)) : DownloadButton :=
  { data := to_csv df
    file_name := "fracture_screening_result.csv"
    mime := "text/csv" }

-- Concrete evaluations of the rational part of the pipeline.

lemma round_eq_of {x : ℚ} {n : ℤ} (h1 : (n : ℚ) ≤ x + 1/2) (h2 : x + 1/2 < n + 1) :
    round x = n := by
  rw [round_eq]
  exact Int.floor_eq_iff.mpr ⟨h1, by exact_mod_cast h2⟩

lemma bmi_example1 : bmi example1 = 273/10 := by
  have h : round ((10 : ℚ) * (70 / (160 / 100) ^ 2)) = 273 :=
    round_eq_of (by norm_num) (by norm_num)
  simp only [bmi, bmi_raw, round1, example1, h]
  norm_num

lemma bmi_extreme (a : ℤ) : bmi { extreme40 with age := a } = 1389/10 := by
  have h : round ((10 : ℚ) * (200 / (120 / 100) ^ 2)) = 1389 :=
    round_eq_of (by norm_num) (by norm_num)
  simp only [bmi, bmi_raw, round1, extreme40, h]
  norm_num

lemma score_example1 : score example1 = -(623/200) := by
  simp only [score]
  rw [bmi_example1]
  simp [score_core, example1, boolToInt,
    AGE_WEIGHT, SEX_MALE_WEIGHT, BMI_WEIGHT, PRIOR_FRACTURE_WEIGHT,
    PARENT_HIP_WEIGHT, SMOKER_WEIGHT, GLUCOCORTICOSTEROID_WEIGHT,
    RHEUMATOID_WEIGHT, SECONDARY_OSTEOPOROSIS_WEIGHT, ALCOHOL_WEIGHT,
    FALL_WEIGHT, IMMOBILITY_WEIGHT, BMD_WEIGHT, BASELINE]
  norm_num

lemma score_example2 : score example2 = -(243/200) := by
  have hb : bmi example2 = 273/10 := bmi_example1
  simp only [score]
  rw [hb]
  simp [score_core, example2, example1, boolToInt,
    AGE_WEIGHT, SEX_MALE_WEIGHT, BMI_WEIGHT, PRIOR_FRACTURE_WEIGHT,
    PARENT_HIP_WEIGHT, SMOKER_WEIGHT, GLUCOCORTICOSTEROID_WEIGHT,
    RHEUMATOID_WEIGHT, SECONDARY_OSTEOPOROSIS_WEIGHT, ALCOHOL_WEIGHT,
    FALL_WEIGHT, IMMOBILITY_WEIGHT, BMD_WEIGHT, BASELINE]
  norm_num

lemma score_crafted : score crafted = 57/200 := by
  have hb : bmi crafted = 273/10 := bmi_example1
  simp only [score]
  rw [hb]
  simp [score_core, crafted, example1, boolToInt,
    AGE_WEIGHT, SEX_MALE_WEIGHT, BMI_WEIGHT, PRIOR_FRACTURE_WEIGHT,
    PARENT_HIP_WEIGHT, SMOKER_WEIGHT, GLUCOCORTICOSTEROID_WEIGHT,
    RHEUMATOID_WEIGHT, SECONDARY_OSTEOPOROSIS_WEIGHT, ALCOHOL_WEIGHT,
    FALL_WEIGHT, IMMOBILITY_WEIGHT, BMD_WEIGHT, BASELINE]
  norm_num

lemma score_unrounded_crafted : score_unrounded crafted = 181/640 := by
  simp only [score_unrounded]
  simp [score_core, bmi_raw, crafted, example1, boolToInt,
    AGE_WEIGHT, SEX_MALE_WEIGHT, BMI_WEIGHT, PRIOR_FRACTURE_WEIGHT,
    PARENT_HIP_WEIGHT, SMOKER_WEIGHT, GLUCOCORTICOSTEROID_WEIGHT,
    RHEUMATOID_WEIGHT, SECONDARY_OSTEOPOROSIS_WEIGHT, ALCOHOL_WEIGHT,
    FALL_WEIGHT, IMMOBILITY_WEIGHT, BMD_WEIGHT, BASELINE]
  norm_num

lemma score_extreme40 : score extreme40 = -(2809/200) := by
  have hb : bmi extreme40 = 1389/10 := bmi_extreme 40
  simp only [score]
  rw [hb]
  simp [score_core, extreme40, boolToInt,
    AGE_WEIGHT, SEX_MALE_WEIGHT, BMI_WEIGHT, PRIOR_FRACTURE_WEIGHT,
    PARENT_HIP_WEIGHT, SMOKER_WEIGHT, GLUCOCORTICOSTEROID_WEIGHT,
    RHEUMATOID_WEIGHT, SECONDARY_OSTEOPOROSIS_WEIGHT, ALCOHOL_WEIGHT,
    FALL_WEIGHT, IMMOBILITY_WEIGHT, BMD_WEIGHT, BASELINE]
  norm_num

lemma score_extreme41 : score extreme41 = -(2785/200) := by
  have hb : bmi extreme41 = 1389/10 := bmi_extreme 41
  simp only [score]
  rw [hb]
  simp [score_core, extreme41, extreme40, boolToInt,
    AGE_WEIGHT, SEX_MALE_WEIGHT, BMI_WEIGHT, PRIOR_FRACTURE_WEIGHT,
    PARENT_HIP_WEIGHT, SMOKER_WEIGHT, GLUCOCORTICOSTEROID_WEIGHT,
    RHEUMATOID_WEIGHT, SECONDARY_OSTEOPOROSIS_WEIGHT, ALCOHOL_WEIGHT,
    FALL_WEIGHT, IMMOBILITY_WEIGHT, BMD_WEIGHT, BASELINE]
  norm_num

-- Numeric bounds on the exponential, from the degree-5 Taylor estimate.

lemma exp_taylor {x : ℝ} (hx : |x| ≤ 1) :
    1 + x + x ^ 2 / 2 + x ^ 3 / 6 + x ^ 4 / 24 - |x| ^ 5 / 100 ≤ Real.exp x ∧
      Real.exp x ≤ 1 + x + x ^ 2 / 2 + x ^ 3 / 6 + x ^ 4 / 24 + |x| ^ 5 / 100 := by
  have h := Real.exp_bound hx (by norm_num : (0 : ℕ) < 5)
  have hs : ∑ m ∈ Finset.range 5, x ^ m / m.factorial
      = 1 + x + x ^ 2 / 2 + x ^ 3 / 6 + x ^ 4 / 24 := by
    simp [Finset.sum_range_succ, Nat.factorial]
    try ring
  rw [hs] at h
  norm_num [Nat.factorial] at h
  have h2 := abs_le.mp h
  constructor <;> linarith [h2.1, h2.2]

lemma exp_q23 : (1.121873 : ℝ) ≤ Real.exp (23/200) ∧ Real.exp (23/200) ≤ 1.1218735 := by
  have h := exp_taylor (x := (23/200 : ℝ)) (by rw [abs_of_nonneg] <;> norm_num)
  rw [abs_of_nonneg (by norm_num : (0:ℝ) ≤ 23/200)] at h
  norm_num at h ⊢
  constructor <;> linarith [h.1, h.2]

lemma exp_q43 : (1.239853 : ℝ) ≤ Real.exp (43/200) ∧ Real.exp (43/200) ≤ 1.239863 := by
  have h := exp_taylor (x := (43/200 : ℝ)) (by rw [abs_of_nonneg] <;> norm_num)
  rw [abs_of_nonneg (by norm_num : (0:ℝ) ≤ 43/200)] at h
  norm_num at h ⊢
  constructor <;> linarith [h.1, h.2]

lemma exp_m57 : (0.752 : ℝ) ≤ Real.exp (-(57/200)) ∧ Real.exp (-(57/200)) ≤ 0.75205 := by
  have h := exp_taylor (x := (-(57/200) : ℝ)) (by rw [abs_of_nonpos] <;> norm_num)
  rw [abs_of_nonpos (by norm_num : (-(57/200):ℝ) ≤ 0)] at h
  norm_num at h ⊢
  constructor <;> linarith [h.1, h.2]

lemma exp_m181 : (0.7536 : ℝ) ≤ Real.exp (-(181/640)) ∧ Real.exp (-(181/640)) ≤ 0.7537 := by
  have h := exp_taylor (x := (-(181/640) : ℝ)) (by rw [abs_of_nonpos] <;> norm_num)
  rw [abs_of_nonpos (by norm_num : (-(181/640):ℝ) ≤ 0)] at h
  norm_num at h ⊢
  constructor <;> linarith [h.1, h.2]

lemma exp_E1 : (22.533 : ℝ) ≤ Real.exp (623/200) ∧ Real.exp (623/200) ≤ 22.534 := by
  have hsplit : Real.exp ((623:ℝ)/200) = Real.exp 1 ^ 3 * Real.exp (23/200) := by
    rw [← Real.exp_nat_mul, ← Real.exp_add]
    norm_num
  have hq := exp_q23
  have h1 : (2.7182818283:ℝ) ^ 3 ≤ Real.exp 1 ^ 3 :=
    pow_le_pow_left₀ (by norm_num) Real.exp_one_gt_d9.le 3
  have h2 : Real.exp 1 ^ 3 ≤ (2.7182818286:ℝ) ^ 3 :=
    pow_le_pow_left₀ (Real.exp_pos 1).le Real.exp_one_lt_d9.le 3
  have hpow_pos : (0:ℝ) ≤ Real.exp 1 ^ 3 := pow_nonneg (Real.exp_pos 1).le 3
  constructor
  · have hlo : (2.7182818283:ℝ) ^ 3 * 1.121873 ≤ Real.exp 1 ^ 3 * Real.exp (23/200) :=
      mul_le_mul h1 hq.1 (by norm_num) hpow_pos
    rw [hsplit]
    nlinarith [hlo]
  · have hhi : Real.exp 1 ^ 3 * Real.exp (23/200) ≤ (2.7182818286:ℝ) ^ 3 * 1.1218735 :=
      mul_le_mul h2 hq.2 (Real.exp_pos _).le (by norm_num)
    rw [hsplit]
    nlinarith [hhi]

lemma exp_E2 : (3.3702 : ℝ) ≤ Real.exp (243/200) ∧ Real.exp (243/200) ≤ 3.3703 := by
  have hsplit : Real.exp ((243:ℝ)/200) = Real.exp 1 * Real.exp (43/200) := by
    rw [← Real.exp_add]
    norm_num
  have hq := exp_q43
  constructor
  · have hlo : (2.7182818283:ℝ) * 1.239853 ≤ Real.exp 1 * Real.exp (43/200) :=
      mul_le_mul Real.exp_one_gt_d9.le hq.1 (by norm_num) (Real.exp_pos 1).le
    rw [hsplit]
    linarith [hlo]
  · have hhi : Real.exp 1 * Real.exp (43/200) ≤ (2.7182818286:ℝ) * 1.239863 :=
      mul_le_mul Real.exp_one_lt_d9.le hq.2 (Real.exp_pos _).le (by norm_num)
    rw [hsplit]
    linarith [hhi]

/-- Lower bound used for the extremely negative scores: `exp x ≥ 2001`
for every `x ≥ 8`. -/
lemma exp_big {x : ℝ} (hx : (8:ℝ) ≤ x) : (2001 : ℝ) ≤ Real.exp x := by
  have h8 : Real.exp 8 ≤ Real.exp x := Real.exp_le_exp.mpr hx
  have hsplit : Real.exp (8:ℝ) = Real.exp 1 ^ 8 := by
    rw [← Real.exp_nat_mul]
    norm_num
  have h1 : (2.7:ℝ) ^ 8 ≤ Real.exp 1 ^ 8 :=
    pow_le_pow_left₀ (by norm_num) (by linarith [Real.exp_one_gt_d9]) 8
  have : (2001:ℝ) ≤ (2.7:ℝ) ^ 8 := by norm_num
  linarith [hsplit ▸ h1]

-- Evaluating the rounded logistic pipeline from exponential bounds.

lemma round1R_eq (x : ℝ) {n : ℤ} (h1 : (n:ℝ) - 1/2 ≤ 10 * x) (h2 : 10 * x < (n:ℝ) + 1/2) :
    round1R x = (n:ℝ) / 10 := by
  unfold round1R
  have h : round (10 * x) = n := by
    rw [round_eq]
    refine Int.floor_eq_iff.mpr ⟨by linarith, ?_⟩
    push_cast
    linarith
  rw [h]

lemma prob_index_bounds {s lo hi : ℝ} (h0 : 0 ≤ lo)
    (hlo : lo ≤ Real.exp (-s)) (hhi : Real.exp (-s) ≤ hi) :
    1000 / (1 + hi) ≤ 10 * (prob_like s * 100) ∧
      10 * (prob_like s * 100) ≤ 1000 / (1 + lo) := by
  have hE := Real.exp_pos (-s)
  have hkey : 10 * (prob_like s * 100) = 1000 / (1 + Real.exp (-s)) := by
    unfold prob_like
    ring
  rw [hkey]
  constructor
  · gcongr <;> linarith
  · gcongr <;> linarith

/-- Evaluating the rounded logistic pipeline from two-sided bounds on
`exp (-s)`. -/
lemma si_eval (lo hi : ℝ) {s : ℝ} {n : ℤ} (h0 : 0 ≤ lo)
    (hlo : lo ≤ Real.exp (-s)) (hhi : Real.exp (-s) ≤ hi)
    (h1 : (n:ℝ) - 1/2 ≤ 1000 / (1 + hi)) (h2 : 1000 / (1 + lo) < (n:ℝ) + 1/2) :
    round1R (prob_like s * 100) = (n:ℝ) / 10 := by
  have h := prob_index_bounds h0 hlo hhi
  exact round1R_eq _ (by linarith [h.1, h1]) (by linarith [h.2, h2])

lemma si_example1 : screening_index example1 = 4.2 := by
  unfold screening_index
  rw [score_example1]
  rw [show (((-(623/200) : ℚ)) : ℝ) = -(623/200 : ℝ) by norm_num]
  rw [si_eval 22.533 22.534 (n := 42) (by norm_num)
    (by rw [neg_neg]; exact exp_E1.1) (by rw [neg_neg]; exact exp_E1.2)
    (by push_cast; norm_num) (by push_cast; norm_num)]
  norm_num

lemma si_example2 : screening_index example2 = 22.9 := by
  unfold screening_index
  rw [score_example2]
  rw [show (((-(243/200) : ℚ)) : ℝ) = -(243/200 : ℝ) by norm_num]
  rw [si_eval 3.3702 3.3703 (n := 229) (by norm_num)
    (by rw [neg_neg]; exact exp_E2.1) (by rw [neg_neg]; exact exp_E2.2)
    (by push_cast; norm_num) (by push_cast; norm_num)]
  norm_num

lemma si_crafted : screening_index crafted = 57.1 := by
  unfold screening_index
  rw [score_crafted]
  rw [show (((57/200 : ℚ)) : ℝ) = (57/200 : ℝ) by norm_num]
  rw [si_eval 0.752 0.75205 (n := 571) (by norm_num)
    (exp_m57.1) (exp_m57.2)
    (by push_cast; norm_num) (by push_cast; norm_num)]
  norm_num

lemma si_crafted_unrounded : screening_index_unrounded crafted = 57.0 := by
  unfold screening_index_unrounded
  rw [score_unrounded_crafted]
  rw [show (((181/640 : ℚ)) : ℝ) = (181/640 : ℝ) by norm_num]
  rw [si_eval 0.7536 0.7537 (n := 570) (by norm_num)
    (exp_m181.1) (exp_m181.2)
    (by push_cast; norm_num) (by push_cast; norm_num)]
  norm_num

/-- Upper bound companion to `exp_big` for scores no larger than 15. -/
lemma exp_le_pow15 {x : ℝ} (hx : x ≤ 15) : Real.exp x ≤ (2.8:ℝ) ^ 15 := by
  have hmono : Real.exp x ≤ Real.exp 15 := Real.exp_le_exp.mpr hx
  have hsplit : Real.exp (15:ℝ) = Real.exp 1 ^ 15 := by
    rw [← Real.exp_nat_mul]
    norm_num
  have h2 : Real.exp 1 ^ 15 ≤ (2.8:ℝ) ^ 15 :=
    pow_le_pow_left₀ (Real.exp_pos 1).le (by linarith [Real.exp_one_lt_d9]) 15
  linarith [hsplit ▸ hmono]

lemma si_extreme40 : screening_index extreme40 = 0 := by
  unfold screening_index
  rw [score_extreme40]
  rw [show (((-(2809/200) : ℚ)) : ℝ) = -(2809/200 : ℝ) by norm_num]
  rw [si_eval 2001 ((2.8:ℝ)^15) (s := -(2809/200 : ℝ)) (n := 0)
    (by norm_num)
    (by rw [neg_neg]; linarith [exp_big (x := (2809/200 : ℝ)) (by norm_num)])
    (by rw [neg_neg]; exact exp_le_pow15 (by norm_num))
    (by push_cast; norm_num)
    (by push_cast; norm_num)]
  norm_num

lemma si_extreme41 : screening_index extreme41 = 0 := by
  unfold screening_index
  rw [score_extreme41]
  rw [show (((-(2785/200) : ℚ)) : ℝ) = -(2785/200 : ℝ) by norm_num]
  rw [si_eval 2001 ((2.8:ℝ)^15) (s := -(2785/200 : ℝ)) (n := 0)
    (by norm_num)
    (by rw [neg_neg]; linarith [exp_big (x := (2785/200 : ℝ)) (by norm_num)])
    (by rw [neg_neg]; exact exp_le_pow15 (by norm_num))
    (by push_cast; norm_num)
    (by push_cast; norm_num)]
  norm_num

-- The interpretation bands as conditional equations.

lemma interp_low {x : ℝ} (h : x < 10) :
    interpretation x = "Low (screening only)." := by
  unfold interpretation
  rw [if_pos h]

lemma interp_mild {x : ℝ} (h1 : 10 ≤ x) (h2 : x < 20) :
    interpretation x = "Mild (consider bone densitometry if other concerns)." := by
  unfold interpretation
  rw [if_neg (by linarith), if_pos h2]

lemma interp_moderate {x : ℝ} (h1 : 20 ≤ x) (h2 : x < 35) :
    interpretation x = "Moderate (consider referral for further assessment / DXA)." := by
  unfold interpretation
  rw [if_neg (by linarith), if_neg (by linarith), if_pos h2]

lemma interp_high {x : ℝ} (h1 : 35 ≤ x) :
    interpretation x = "High (refer for DXA and specialist assessment)." := by
  unfold interpretation
  rw [if_neg (by linarith), if_neg (by linarith), if_neg (by linarith)]

-- Closed form of the linear predictor and monotonicity.

/-- The Python truthiness guard `femoral_neck_bmd and femoral_neck_bmd > 0.0`
is equivalent to plain positivity. -/
lemma bmd_guard_iff (b : ℚ) : (b ≠ 0 ∧ 0 < b) ↔ 0 < b :=
  ⟨fun h => h.2, fun h => ⟨ne_of_gt h, h⟩⟩

lemma ite_add_right (c : Prop) [Decidable c] (s w : ℚ) :
    (if c then s + w else s) = s + (if c then w else 0) := by
  split_ifs <;> ring

lemma score_closed (i : PatientInput) :
    score i = -6 + 12/100 * ((i.age : ℚ) - 40)
      + (if i.sex = Sex.Male then -(10/100) else 0)
      + -(5/100) * (bmi i - 25)
      + (if i.prior_fracture then 12/10 else 0)
      + (if i.parent_hip then 7/10 else 0)
      + (if i.current_smoker then 6/10 else 0)
      + (if i.glucocorticoids then 9/10 else 0)
      + (if i.rheumatoid then 8/10 else 0)
      + (if i.secondary_osteoporosis then 9/10 else 0)
      + (if i.alcohol_3_more then 5/10 else 0)
      + (if i.fall_in_last_year then 8/10 else 0)
      + (if i.immobility then 1 else 0)
      + (if 0 < i.femoral_neck_bmd then -(25/10) * (i.femoral_neck_bmd - 7/10) else 0) := by
  simp only [score, score_core, boolToInt, mul_ite, mul_one, mul_zero,
    bmd_guard_iff, AGE_WEIGHT, SEX_MALE_WEIGHT, BMI_WEIGHT,
    PRIOR_FRACTURE_WEIGHT, PARENT_HIP_WEIGHT, SMOKER_WEIGHT,
    GLUCOCORTICOSTEROID_WEIGHT, RHEUMATOID_WEIGHT,
    SECONDARY_OSTEOPOROSIS_WEIGHT, ALCOHOL_WEIGHT, FALL_WEIGHT,
    IMMOBILITY_WEIGHT, BMD_WEIGHT, BASELINE, ite_add_right]

/-- The same closed form for the unrounded-BMI variant of the spec. -/
lemma score_unrounded_closed (i : PatientInput) :
    score_unrounded i = -6 + 12/100 * ((i.age : ℚ) - 40)
      + (if i.sex = Sex.Male then -(10/100) else 0)
      + -(5/100) * (bmi_raw i - 25)
      + (if i.prior_fracture then 12/10 else 0)
      + (if i.parent_hip then 7/10 else 0)
      + (if i.current_smoker then 6/10 else 0)
      + (if i.glucocorticoids then 9/10 else 0)
      + (if i.rheumatoid then 8/10 else 0)
      + (if i.secondary_osteoporosis then 9/10 else 0)
      + (if i.alcohol_3_more then 5/10 else 0)
      + (if i.fall_in_last_year then 8/10 else 0)
      + (if i.immobility then 1 else 0)
      + (if 0 < i.femoral_neck_bmd then -(25/10) * (i.femoral_neck_bmd - 7/10) else 0) := by
  simp only [score_unrounded, score_core, boolToInt, mul_ite, mul_one, mul_zero,
    bmd_guard_iff, AGE_WEIGHT, SEX_MALE_WEIGHT, BMI_WEIGHT,
    PRIOR_FRACTURE_WEIGHT, PARENT_HIP_WEIGHT, SMOKER_WEIGHT,
    GLUCOCORTICOSTEROID_WEIGHT, RHEUMATOID_WEIGHT,
    SECONDARY_OSTEOPOROSIS_WEIGHT, ALCOHOL_WEIGHT, FALL_WEIGHT,
    IMMOBILITY_WEIGHT, BMD_WEIGHT, BASELINE, ite_add_right]

lemma prob_like_mono {a b : ℝ} (hab : a ≤ b) : prob_like a ≤ prob_like b := by
  unfold prob_like
  have h : Real.exp (-b) ≤ Real.exp (-a) := Real.exp_le_exp.mpr (by linarith)
  have hb : 0 < 1 + Real.exp (-b) := by positivity
  exact one_div_le_one_div_of_le hb (by linarith)

lemma round1R_mono {x y : ℝ} (h : x ≤ y) : round1R x ≤ round1R y := by
  unfold round1R
  have hr : round (10 * x) ≤ round (10 * y) := by
    rw [round_eq, round_eq]
    exact Int.floor_le_floor (by linarith)
  have hc : ((round (10 * x) : ℤ) : ℝ) ≤ ((round (10 * y) : ℤ) : ℝ) := by
    exact_mod_cast hr
  linarith

/-- The screening index is monotone in the linear predictor. -/
lemma screening_index_mono {i j : PatientInput} (h : score i ≤ score j) :
    screening_index i ≤ screening_index j := by
  unfold screening_index
  apply round1R_mono
  have hp : prob_like ((score i : ℚ) : ℝ) ≤ prob_like ((score j : ℚ) : ℝ) :=
    prob_like_mono (by exact_mod_cast h)
  nlinarith [hp]

-- The BMI and the other fields are untouched by single-field updates.

lemma bmi_set_age (i : PatientInput) (a : ℤ) : bmi { i with age := a } = bmi i := rfl

lemma bmi_set_bmd (i : PatientInput) (b : ℚ) :
    bmi { i with femoral_neck_bmd := b } = bmi i := rfl

lemma score_set_age (i : PatientInput) (a : ℤ) :
    score { i with age := a }
      = score i + 12/100 * ((a : ℚ) - (i.age : ℚ)) := by
  rw [score_closed i, score_closed { i with age := a }]
  simp only [bmi_set_age]
  ring

lemma score_set_bmd_pos (i : PatientInput) {b : ℚ} (hb : 0 < b) :
    score { i with femoral_neck_bmd := b }
      = score { i with femoral_neck_bmd := 0 } + -(25/10) * (b - 7/10) := by
  rw [score_closed { i with femoral_neck_bmd := b },
    score_closed { i with femoral_neck_bmd := 0 }]
  simp only [bmi_set_bmd]
  rw [if_pos hb, if_neg (show ¬ ((0:ℚ) < 0) by norm_num)]
  ring

-- Flipping each boolean risk factor from false to true adds its weight.

lemma score_set_prior (i : PatientInput) (h : i.prior_fracture = false) :
    score { i with prior_fracture := true } = score i + 12/10 := by
  rw [score_closed { i with prior_fracture := true }, score_closed i]
  simp [show bmi { i with prior_fracture := true } = bmi i from rfl, h]
  try ring

lemma score_set_parent (i : PatientInput) (h : i.parent_hip = false) :
    score { i with parent_hip := true } = score i + 7/10 := by
  rw [score_closed { i with parent_hip := true }, score_closed i]
  simp [show bmi { i with parent_hip := true } = bmi i from rfl, h]
  try ring

lemma score_set_smoker (i : PatientInput) (h : i.current_smoker = false) :
    score { i with current_smoker := true } = score i + 6/10 := by
  rw [score_closed { i with current_smoker := true }, score_closed i]
  simp [show bmi { i with current_smoker := true } = bmi i from rfl, h]
  try ring

lemma score_set_gluco (i : PatientInput) (h : i.glucocorticoids = false) :
    score { i with glucocorticoids := true } = score i + 9/10 := by
  rw [score_closed { i with glucocorticoids := true }, score_closed i]
  simp [show bmi { i with glucocorticoids := true } = bmi i from rfl, h]
  try ring

lemma score_set_rheumatoid (i : PatientInput) (h : i.rheumatoid = false) :
    score { i with rheumatoid := true } = score i + 8/10 := by
  rw [score_closed { i with rheumatoid := true }, score_closed i]
  simp [show bmi { i with rheumatoid := true } = bmi i from rfl, h]
  try ring

lemma score_set_secondary (i : PatientInput) (h : i.secondary_osteoporosis = false) :
    score { i with secondary_osteoporosis := true } = score i + 9/10 := by
  rw [score_closed { i with secondary_osteoporosis := true }, score_closed i]
  simp [show bmi { i with secondary_osteoporosis := true } = bmi i from rfl, h]
  try ring

lemma score_set_alcohol (i : PatientInput) (h : i.alcohol_3_more = false) :
    score { i with alcohol_3_more := true } = score i + 5/10 := by
  rw [score_closed { i with alcohol_3_more := true }, score_closed i]
  simp [show bmi { i with alcohol_3_more := true } = bmi i from rfl, h]
  try ring

lemma score_set_fall (i : PatientInput) (h : i.fall_in_last_year = false) :
    score { i with fall_in_last_year := true } = score i + 8/10 := by
  rw [score_closed { i with fall_in_last_year := true }, score_closed i]
  simp [show bmi { i with fall_in_last_year := true } = bmi i from rfl, h]
  try ring

lemma score_set_immobility (i : PatientInput) (h : i.immobility = false) :
    score { i with immobility := true } = score i + 1 := by
  rw [score_closed { i with immobility := true }, score_closed i]
  simp [show bmi { i with immobility := true } = bmi i from rfl, h]
  try ring

-- The claim theorems.

/-- C1: for every `PatientInput` (hence in particular within the declared
domains), the linear predictor equals the baseline −6.0 plus 0.12·(age−40),
plus −0.10 for Male, plus −0.05·(bmi−25) with the 1-decimal-rounded BMI,
plus the nine boolean weights 1.2, 0.7, 0.6, 0.9, 0.8, 0.9, 0.5, 0.8, 1.0,
plus −2.5·(femoral_neck_bmd−0.7) exactly when femoral_neck_bmd > 0; and
the screening index is round(100 · 1/(1+e^(−score)), 1 decimal). -/
theorem C1_linear_predictor_formula (i : PatientInput) :
    score i = -6 + 12/100 * ((i.age : ℚ) - 40)
      + (if i.sex = Sex.Male then -(10/100) else 0)
      + -(5/100) * (bmi i - 25)
      + (if i.prior_fracture then 12/10 else 0)
      + (if i.parent_hip then 7/10 else 0)
      + (if i.current_smoker then 6/10 else 0)
      + (if i.glucocorticoids then 9/10 else 0)
      + (if i.rheumatoid then 8/10 else 0)
      + (if i.secondary_osteoporosis then 9/10 else 0)
      + (if i.alcohol_3_more then 5/10 else 0)
      + (if i.fall_in_last_year then 8/10 else 0)
      + (if i.immobility then 1 else 0)
      + (if 0 < i.femoral_neck_bmd then -(25/10) * (i.femoral_neck_bmd - 7/10) else 0)
    ∧ screening_index i
        = round1R (100 * (1 / (1 + Real.exp (-((score i : ℚ) : ℝ))))) := by
  refine ⟨score_closed i, ?_⟩
  unfold screening_index prob_like
  rw [mul_comm (1 / (1 + Real.exp (-((score i : ℚ) : ℝ)))) 100]

/-- C2: the interpretation label is chosen from the rounded screening
index by the half-open bands `< 10`, `< 20`, `< 35`, `≥ 35`, evaluated in
order with the first match winning; in particular the values 10.0, 20.0
and 35.0 map to "Mild", "Moderate" and "High", 9.9 maps to "Low" and 34.9
to "Moderate". -/
theorem C2_interpretation_bands (i : PatientInput) :
    (screening_index i < 10 →
      interpretation (screening_index i) = "Low (screening only).") ∧
    (10 ≤ screening_index i ∧ screening_index i < 20 →
      interpretation (screening_index i)
        = "Mild (consider bone densitometry if other concerns).") ∧
    (20 ≤ screening_index i ∧ screening_index i < 35 →
      interpretation (screening_index i)
        = "Moderate (consider referral for further assessment / DXA).") ∧
    (35 ≤ screening_index i →
      interpretation (screening_index i)
        = "High (refer for DXA and specialist assessment).") ∧
    interpretation 10 = "Mild (consider bone densitometry if other concerns)." ∧
    interpretation 20 = "Moderate (consider referral for further assessment / DXA)." ∧
    interpretation 35 = "High (refer for DXA and specialist assessment)." ∧
    interpretation 9.9 = "Low (screening only)." ∧
    interpretation 34.9 = "Moderate (consider referral for further assessment / DXA)." := by
  refine ⟨fun h => interp_low h, fun h => interp_mild h.1 h.2,
    fun h => interp_moderate h.1 h.2, fun h => interp_high h,
    interp_mild (by norm_num) (by norm_num),
    interp_moderate (by norm_num) (by norm_num),
    interp_high (by norm_num),
    interp_low (by norm_num),
    interp_moderate (by norm_num) (by norm_num)⟩

/-- Witness for C2 at example 1, whose screening index is 4.2. -/
theorem C2_interpretation_bands_witness :
    screening_index example1 < 10 ∧
      interpretation (screening_index example1) = "Low (screening only)." := by
  have h : screening_index example1 < 10 := by
    rw [si_example1]
    norm_num
  exact ⟨h, (C2_interpretation_bands example1).1 h⟩

/-- C3: the BMI fed into the score is the 1-decimal-rounded value of
weight/(height/100)², and on the crafted input (age 85, Female, 70 kg,
160 cm, immobility, no BMD) using the unrounded BMI would change the
screening index (57.1 against 57.0). -/
theorem C3_bmi_rounding_order :
    (∀ i : PatientInput, bmi i = round1 (i.weight / (i.height_cm / 100) ^ 2)) ∧
    (∀ i : PatientInput, score i = score_core i (round1 (i.weight / (i.height_cm / 100) ^ 2))) ∧
    screening_index crafted = 57.1 ∧
    screening_index_unrounded crafted = 57.0 ∧
    screening_index crafted ≠ screening_index_unrounded crafted := by
  refine ⟨fun i => rfl, fun i => rfl, si_crafted, si_crafted_unrounded, ?_⟩
  rw [si_crafted, si_crafted_unrounded]
  norm_num

/-- C4: with `femoral_neck_bmd = 0` the BMD term contributes exactly
nothing to the predictor, whatever the other inputs; with
`femoral_neck_bmd > 0` the predictor contains the extra term
−2.5·(bmd−0.7). -/
theorem C4_bmd_sentinel (i : PatientInput) :
    (i.femoral_neck_bmd = 0 → score i = score { i with femoral_neck_bmd := 0 }) ∧
    (0 < i.femoral_neck_bmd →
      score i = score { i with femoral_neck_bmd := 0 }
        + -(25/10) * (i.femoral_neck_bmd - 7/10)) := by
  constructor
  · intro h
    rw [score_closed i, score_closed { i with femoral_neck_bmd := 0 }]
    simp only [bmi_set_bmd, h]
  · intro h
    rw [score_closed i, score_closed { i with femoral_neck_bmd := 0 }]
    simp only [bmi_set_bmd]
    rw [if_pos h, if_neg (show ¬((0:ℚ) < 0) by norm_num)]
    ring

/-- Witness for C4: example 1 with BMD 1.0 gains the term −2.5·(1−0.7). -/
theorem C4_bmd_sentinel_witness :
    score { example1 with femoral_neck_bmd := 1 }
      = score { { example1 with femoral_neck_bmd := 1 } with femoral_neck_bmd := 0 }
        + -(25/10) * (({ example1 with femoral_neck_bmd := 1 } : PatientInput).femoral_neck_bmd - 7/10) :=
  (C4_bmd_sentinel { example1 with femoral_neck_bmd := 1 }).2 (by norm_num)

/-- C5: the two end-to-end reference vectors: example 1 gives BMI 27.3,
predictor −3.115, screening index 4.2 and the "Low" label; example 2
(prior and parental hip fracture added) gives predictor −1.215, index
22.9 and the "Moderate" label. -/
theorem C5_reference_vectors :
    bmi example1 = 273/10 ∧
    score example1 = -(623/200) ∧
    screening_index example1 = 4.2 ∧
    interpretation (screening_index example1) = "Low (screening only)." ∧
    score example2 = -(243/200) ∧
    screening_index example2 = 22.9 ∧
    interpretation (screening_index example2)
      = "Moderate (consider referral for further assessment / DXA)." := by
  refine ⟨bmi_example1, score_example1, si_example1, ?_, score_example2, si_example2, ?_⟩
  · rw [si_example1]
    exact interp_low (by norm_num)
  · rw [si_example2]
    exact interp_moderate (by norm_num) (by norm_num)

/-- C6 counterexample: on the in-domain input `extreme40` (age 40, Male,
200 kg, 120 cm, BMD 1.6, no risk factors), raising the age to 41 strictly
increases the linear predictor but leaves the rounded screening index
unchanged at 0.0, so the claim that increasing age strictly increases
`screening_index` is false. -/
theorem C6_counterexample_age_rounding :
    extreme41 = { extreme40 with age := 41 } ∧
    extreme40.age < extreme41.age ∧
    score extreme40 < score extreme41 ∧
    screening_index extreme40 = screening_index extreme41 := by
  refine ⟨rfl, by norm_num [extreme40, extreme41], ?_, ?_⟩
  · rw [score_extreme40, score_extreme41]
    norm_num
  · rw [si_extreme40, si_extreme41]

/-- C6 amended: holding all other inputs fixed, increasing age strictly
increases the linear predictor and weakly increases the screening index
(the logistic transform is strictly increasing but the final 1-decimal
rounding can merge neighbouring values); increasing the BMD within
positive values strictly decreases the predictor and weakly decreases the
index; flipping any one of the nine boolean risk factors from false to
true strictly increases the predictor and weakly increases the index. -/
theorem C6_monotonicity :
    (∀ (i : PatientInput) (a b : ℤ), a < b →
      score { i with age := a } < score { i with age := b } ∧
      screening_index { i with age := a } ≤ screening_index { i with age := b }) ∧
    (∀ (i : PatientInput) (b c : ℚ), 0 < b → b < c →
      score { i with femoral_neck_bmd := c } < score { i with femoral_neck_bmd := b } ∧
      screening_index { i with femoral_neck_bmd := c }
        ≤ screening_index { i with femoral_neck_bmd := b }) ∧
    (∀ i : PatientInput, i.prior_fracture = false →
      score i < score { i with prior_fracture := true } ∧
      screening_index i ≤ screening_index { i with prior_fracture := true }) ∧
    (∀ i : PatientInput, i.parent_hip = false →
      score i < score { i with parent_hip := true } ∧
      screening_index i ≤ screening_index { i with parent_hip := true }) ∧
    (∀ i : PatientInput, i.current_smoker = false →
      score i < score { i with current_smoker := true } ∧
      screening_index i ≤ screening_index { i with current_smoker := true }) ∧
    (∀ i : PatientInput, i.glucocorticoids = false →
      score i < score { i with glucocorticoids := true } ∧
      screening_index i ≤ screening_index { i with glucocorticoids := true }) ∧
    (∀ i : PatientInput, i.rheumatoid = false →
      score i < score { i with rheumatoid := true } ∧
      screening_index i ≤ screening_index { i with rheumatoid := true }) ∧
    (∀ i : PatientInput, i.secondary_osteoporosis = false →
      score i < score { i with secondary_osteoporosis := true } ∧
      screening_index i ≤ screening_index { i with secondary_osteoporosis := true }) ∧
    (∀ i : PatientInput, i.alcohol_3_more = false →
      score i < score { i with alcohol_3_more := true } ∧
      screening_index i ≤ screening_index { i with alcohol_3_more := true }) ∧
    (∀ i : PatientInput, i.fall_in_last_year = false →
      score i < score { i with fall_in_last_year := true } ∧
      screening_index i ≤ screening_index { i with fall_in_last_year := true }) ∧
    (∀ i : PatientInput, i.immobility = false →
      score i < score { i with immobility := true } ∧
      screening_index i ≤ screening_index { i with immobility := true }) := by
  have age : ∀ (i : PatientInput) (a b : ℤ), a < b →
      score { i with age := a } < score { i with age := b } := by
    intro i a b hab
    have hq : (a:ℚ) < (b:ℚ) := by exact_mod_cast hab
    rw [score_set_age i a, score_set_age i b]
    linarith
  have bmd : ∀ (i : PatientInput) (b c : ℚ), 0 < b → b < c →
      score { i with femoral_neck_bmd := c } < score { i with femoral_neck_bmd := b } := by
    intro i b c hb hbc
    rw [score_set_bmd_pos i hb, score_set_bmd_pos i (hb.trans hbc)]
    linarith
  refine ⟨fun i a b h => ⟨age i a b h, screening_index_mono (age i a b h).le⟩,
    fun i b c h h2 => ⟨bmd i b c h h2, screening_index_mono (bmd i b c h h2).le⟩,
    fun i h => ?_, fun i h => ?_, fun i h => ?_, fun i h => ?_, fun i h => ?_,
    fun i h => ?_, fun i h => ?_, fun i h => ?_, fun i h => ?_⟩
  · have hs : score i < score { i with prior_fracture := true } := by
      rw [score_set_prior i h]; linarith
    exact ⟨hs, screening_index_mono hs.le⟩
  · have hs : score i < score { i with parent_hip := true } := by
      rw [score_set_parent i h]; linarith
    exact ⟨hs, screening_index_mono hs.le⟩
  · have hs : score i < score { i with current_smoker := true } := by
      rw [score_set_smoker i h]; linarith
    exact ⟨hs, screening_index_mono hs.le⟩
  · have hs : score i < score { i with glucocorticoids := true } := by
      rw [score_set_gluco i h]; linarith
    exact ⟨hs, screening_index_mono hs.le⟩
  · have hs : score i < score { i with rheumatoid := true } := by
      rw [score_set_rheumatoid i h]; linarith
    exact ⟨hs, screening_index_mono hs.le⟩
  · have hs : score i < score { i with secondary_osteoporosis := true } := by
      rw [score_set_secondary i h]; linarith
    exact ⟨hs, screening_index_mono hs.le⟩
  · have hs : score i < score { i with alcohol_3_more := true } := by
      rw [score_set_alcohol i h]; linarith
    exact ⟨hs, screening_index_mono hs.le⟩
  · have hs : score i < score { i with fall_in_last_year := true } := by
      rw [score_set_fall i h]; linarith
    exact ⟨hs, screening_index_mono hs.le⟩
  · have hs : score i < score { i with immobility := true } := by
      rw [score_set_immobility i h]; linarith
    exact ⟨hs, screening_index_mono hs.le⟩

/-- Witness for the amended C6 at example 1, ages 65 < 66. -/
theorem C6_monotonicity_witness :
    score { example1 with age := 65 } < score { example1 with age := 66 } ∧
      screening_index { example1 with age := 65 }
        ≤ screening_index { example1 with age := 66 } :=
  C6_monotonicity.1 example1 65 66 (by norm_num)

/-- C7: the computation is a pure function of the input: identical inputs
give identical BMI, screening index and interpretation (the scoring path
of the source reads nothing but the form fields and the fixed weights,
and the embedding is a total function with no state). -/
theorem C7_determinism (i j : PatientInput) (h : i = j) :
    computeScreening i = computeScreening j := by
  rw [h]

/-- Witness for C7 at example 1. -/
theorem C7_determinism_witness :
    computeScreening example1 = computeScreening example1 :=
  C7_determinism example1 example1 rfl

/-- C8: for every input the screening index lies in [0, 100] and is an
integer multiple of 0.1 (rounded to one decimal place). -/
theorem C8_index_range (i : PatientInput) :
    0 ≤ screening_index i ∧ screening_index i ≤ 100 ∧
      ∃ n : ℤ, screening_index i = (n : ℝ) / 10 := by
  have hE := Real.exp_pos (-((score i : ℚ) : ℝ))
  have hp0 : 0 < prob_like ((score i : ℚ) : ℝ) := by
    unfold prob_like
    positivity
  have hp1 : prob_like ((score i : ℚ) : ℝ) < 1 := by
    unfold prob_like
    rw [div_lt_one (by positivity)]
    linarith
  unfold screening_index round1R
  have hlow : (0:ℤ) ≤ round (10 * (prob_like ((score i : ℚ) : ℝ) * 100)) := by
    rw [round_eq]
    exact Int.floor_nonneg.mpr (by nlinarith)
  have hhigh : round (10 * (prob_like ((score i : ℚ) : ℝ) * 100)) ≤ 1000 := by
    rw [round_eq]
    have hlt : ⌊10 * (prob_like ((score i : ℚ) : ℝ) * 100) + 1/2⌋ < 1001 :=
      Int.floor_lt.mpr (by push_cast; nlinarith)
    omega
  have hcast1 : (0:ℝ) ≤ ((round (10 * (prob_like ((score i : ℚ) : ℝ) * 100)) : ℤ) : ℝ) := by
    exact_mod_cast hlow
  have hcast2 : ((round (10 * (prob_like ((score i : ℚ) : ℝ) * 100)) : ℤ) : ℝ) ≤ 1000 := by
    exact_mod_cast hhigh
  exact ⟨by linarith, by linarith,
    ⟨round (10 * (prob_like ((score i : ℚ) : ℝ) * 100)), rfl⟩⟩

/-- C9: the exported record is a header row followed by exactly one data
row, comma-separated, with the fields in the order date, age, sex,
weight_kg, height_cm, bmi, femoral_neck_bmd, screening_index,
interpretation; the file name is `fracture_screening_result.csv` and the
MIME type `text/csv`. -/
theorem C9_csv_export (dateV ageV sexV weightV heightV bmiV bmdV siV interpV : String) :
    (user_data dateV ageV sexV weightV heightV bmiV bmdV siV interpV).map Prod.fst
      = ["date", "age", "sex", "weight_kg", "height_cm", "bmi",
          "femoral_neck_bmd", "screening_index", "interpretation"] ∧
    (download_button (user_data dateV ageV sexV weightV heightV bmiV bmdV siV interpV)).data
      = "date,age,sex,weight_kg,height_cm,bmi,femoral_neck_bmd,screening_index,interpretation\n"
        ++ dateV ++ "," ++ ageV ++ "," ++ sexV ++ "," ++ weightV ++ "," ++ heightV
        ++ "," ++ bmiV ++ "," ++ bmdV ++ "," ++ siV ++ "," ++ interpV ++ "\n" ∧
    (download_button (user_data dateV ageV sexV weightV heightV bmiV bmdV siV interpV)).file_name
      = "fracture_screening_result.csv" ∧
    (download_button (user_data dateV ageV sexV weightV heightV bmiV bmdV siV interpV)).mime
      = "text/csv" := by
  refine ⟨rfl, ?_, rfl, rfl⟩
  show to_csv _ = _
  simp [to_csv, user_data, String.intercalate, String.intercalate.go,
    String.append_assoc]

/-- C10: the guard `femoral_neck_bmd and femoral_neck_bmd > 0.0` of the source
(truthiness conjoined with positivity) holds exactly when the BMD is
strictly positive, so the BMD term is included if and only if
femoral_neck_bmd > 0, and every non-positive value contributes nothing. -/
theorem C10_bmd_guard (i : PatientInput) :
    ((i.femoral_neck_bmd ≠ 0 ∧ 0 < i.femoral_neck_bmd) ↔ 0 < i.femoral_neck_bmd) ∧
    score i = score { i with femoral_neck_bmd := 0 }
      + (if 0 < i.femoral_neck_bmd then -(25/10) * (i.femoral_neck_bmd - 7/10) else 0) := by
  refine ⟨bmd_guard_iff _, ?_⟩
  rw [score_closed i, score_closed { i with femoral_neck_bmd := 0 }]
  simp only [bmi_set_bmd]
  rw [if_neg (show ¬((0:ℚ) < 0) by norm_num)]
  ring

end FractureRisk
